import Mathlib

/-!
Verification of the confidential lending and payroll settlement programs.

The development shallowly embeds, in Lean, the encrypted arithmetic circuits
(`src/lending/lending-encrypted-ixs/src/lib.rs`), the persisted state records
(`src/lending/src/state.rs`, `src/payroll/src/state.rs`) and the instruction
handlers (`src/lending/src/processor.rs`, `src/payroll/src/processor.rs`).
Monetary quantities are modelled as natural numbers with truncating division;
ciphertexts are modelled by the plaintext byte lists they carry, since the
handlers treat them as opaque blobs; fallible handlers return `Except`.
The basis-point arithmetic of the circuits (the `BasePoints` operations of
the external circuit runtime) is pinned by the repository's own test oracle
`mul_base_points` / `div_base_points` in `src/lending/tests/lending.rs`,
whose results the tests assert to be bit-identical to the circuit outputs.
-/

namespace CSpl

/-- Errors surfaced by the handlers, mirroring the `solana_program::ProgramError`
variants used in `src/lending/src/processor.rs` and `src/payroll/src/processor.rs`.
`abortUnwrap` stands for a Rust `unwrap`/slice-index abort path. -/
inductive ProgErr where
  | missingRequiredSignature
  | invalidAccountData
  | incorrectProgramId
  | invalidSeeds
  | illegalOwner
  | accountDataTooSmall
  | invalidAccountOwner
  | borshIoError
  | custom (code : Nat)
  | abortUnwrap
  deriving DecidableEq, Repr

/-- Multiplication of an amount by a basis-point ratio: `a * bps / 10_000`,
multiply first, truncating division second. Semantics of the circuit's
`x * BasePoints(bps)` as pinned by `mul_base_points` in
`src/lending/tests/lending.rs`. -/
def mulBasePoints (a bps : Nat) : Nat := a * bps / 10000

/-- Division of an amount by a basis-point ratio: `a * 10_000 / bps`,
multiply by the scale first, truncating division second. Semantics of the
circuit's `x / BasePoints(bps)` as pinned by `div_base_points` in
`src/lending/tests/lending.rs`. -/
def divBasePoints (a bps : Nat) : Nat := a * 10000 / bps

/-- Values computed by the `borrow` circuit
(`src/lending/lending-encrypted-ixs/src/lib.rs`, fn `borrow`): the two
transfer legs carry `loanAmount` (asset vault to borrower) and
`collateralExcessAmount` (collateral vault to borrower), and the returned
ciphertext re-encrypts `loanAmount` as the new principal. -/
structure BorrowOutputs where
  maxLoanAmount : Nat
  loanAmount : Nat
  loanCollateralAmount : Nat
  collateralExcessAmount : Nat
  newPrincipal : Nat
  deriving DecidableEq, Repr

/-- The `borrow` circuit. Direct translation of the bindings of fn `borrow`:
`loan_to_value_bps_ratio = BasePoints(price * loan_to_value_bps)`,
`max_loan_amount = collateral_amount * ratio`,
`loan_amount = min(max_loan_amount, asset_amount)`,
`loan_collateral_amount = loan_amount / ratio`,
`collateral_excess_amount = collateral_amount - loan_collateral_amount`. -/
def borrow (assetAmount collateralAmount price loanToValueBps : Nat) : BorrowOutputs :=
  let ratio := price * loanToValueBps
  let maxLoanAmount := mulBasePoints collateralAmount ratio
  let loanAmount := min maxLoanAmount assetAmount
  let loanCollateralAmount := divBasePoints loanAmount ratio
  let collateralExcessAmount := collateralAmount - loanCollateralAmount
  ⟨maxLoanAmount, loanAmount, loanCollateralAmount, collateralExcessAmount, loanAmount⟩

/-- Values computed by the `repay` circuit
(`src/lending/lending-encrypted-ixs/src/lib.rs`, fn `repay`): the transfer
legs carry `actualRepayAmount` (repay account to lender) and
`collateralRepayment` (collateral vault to borrower); the returned ciphertext
re-encrypts `remainingDue` and the boolean `loanIsFullyRepaid` is revealed. -/
structure RepayOutputs where
  interestAccrued : Nat
  totalDue : Nat
  actualRepayAmount : Nat
  remainingDue : Nat
  collateralRepayment : Nat
  loanIsFullyRepaid : Bool
  deriving DecidableEq, Repr

/-- The `repay` circuit. Direct translation of the bindings of fn `repay`:
`interest_accrued = remaining_principal * BasePoints(interest_rate_bps * slots_elapsed)`,
`total_due = remaining_principal + interest_accrued`,
`actual_repay_amount = min(repay_amount, total_due)`,
`remaining_due = total_due - actual_repay_amount`,
`collateral_repayment = (actual_repay_amount / total_due) * locked_collateral`
(plain truncating division of the two amounts, then multiplication),
`loan_is_fully_repaid = remaining_due.eq(0)`. -/
def repay (repayAmount lockedCollateral remainingPrincipal slotsElapsed interestRateBps : Nat) :
    RepayOutputs :=
  let interestAccrued := mulBasePoints remainingPrincipal (interestRateBps * slotsElapsed)
  let totalDue := remainingPrincipal + interestAccrued
  let actualRepayAmount := min repayAmount totalDue
  let remainingDue := totalDue - actualRepayAmount
  let collateralRepayment := actualRepayAmount / totalDue * lockedCollateral
  ⟨interestAccrued, totalDue, actualRepayAmount, remainingDue, collateralRepayment,
    remainingDue == 0⟩

/-- Formula for `loan_collateral` exactly as the specification words it:
`loan / (price * ltv_bps / 10_000)`, where the ratio `price * ltv_bps / 10_000`
is itself computed with truncating division before dividing into the loan.
Written from the spec's words only, for comparison against the source's
`divBasePoints` computation. -/
def specLoanCollateral (loanAmount price loanToValueBps : Nat) : Nat :=
  loanAmount / (price * loanToValueBps / 10000)

/-- Key bound for conservation: the collateral locked for the loan never
exceeds the collateral vault balance, because the loan is capped by
`max_loan = c * d / 10_000` and scaling back with `loan * 10_000 / d`
cannot exceed `c`. -/
theorem loanCollateral_le_collateral (c d a : Nat) :
    divBasePoints (min (mulBasePoints c d) a) d ≤ c := by
  rcases Nat.eq_zero_or_pos d with hd | hd
  · simp [divBasePoints, hd]
  · have h1 : min (mulBasePoints c d) a ≤ c * d / 10000 := min_le_left _ _
    have h2 : min (mulBasePoints c d) a * 10000 ≤ c * d :=
      le_trans (Nat.mul_le_mul_right _ h1) (Nat.div_mul_le_self (c * d) 10000)
    calc divBasePoints (min (mulBasePoints c d) a) d
        = min (mulBasePoints c d) a * 10000 / d := rfl
      _ ≤ c * d / d := Nat.div_le_div_right h2
      _ = c := Nat.mul_div_cancel c hd

/-- C1: conservation of the borrow circuit. For all non-negative inputs with
`ltv_bps ≤ 10_000`: the loan never exceeds the asset vault balance, so
`loan + remaining_vault_asset = asset_amount` where the remaining vault
balance is `asset_amount - loan`; and the locked collateral never exceeds the
collateral vault balance, so
`loan_collateral + collateral_excess = collateral_amount` and the subtraction
computing `collateral_excess` does not underflow. -/
theorem borrow_conservation (assetAmount collateralAmount price loanToValueBps : Nat)
    (_hltv : loanToValueBps ≤ 10000) :
    (borrow assetAmount collateralAmount price loanToValueBps).loanAmount ≤ assetAmount ∧
    (borrow assetAmount collateralAmount price loanToValueBps).loanAmount +
      (assetAmount - (borrow assetAmount collateralAmount price loanToValueBps).loanAmount) =
        assetAmount ∧
    (borrow assetAmount collateralAmount price loanToValueBps).loanCollateralAmount ≤
      collateralAmount ∧
    (borrow assetAmount collateralAmount price loanToValueBps).loanCollateralAmount +
      (borrow assetAmount collateralAmount price loanToValueBps).collateralExcessAmount =
        collateralAmount := by
  have hloan : (borrow assetAmount collateralAmount price loanToValueBps).loanAmount ≤
      assetAmount := min_le_right _ _
  have hlc : (borrow assetAmount collateralAmount price loanToValueBps).loanCollateralAmount ≤
      collateralAmount := loanCollateral_le_collateral _ _ _
  refine ⟨hloan, Nat.add_sub_cancel' hloan, hlc, ?_⟩
  exact Nat.add_sub_cancel' hlc

/-- Witness for C1 at the spec's own borrow example: asset 1000, collateral
2500, price 1, ltv 10_000. -/
theorem borrow_conservation_witness :
    10000 ≤ 10000 ∧
    ((borrow 1000 2500 1 10000).loanAmount ≤ 1000 ∧
     (borrow 1000 2500 1 10000).loanAmount + (1000 - (borrow 1000 2500 1 10000).loanAmount) =
       1000 ∧
     (borrow 1000 2500 1 10000).loanCollateralAmount ≤ 2500 ∧
     (borrow 1000 2500 1 10000).loanCollateralAmount +
       (borrow 1000 2500 1 10000).collateralExcessAmount = 2500) :=
  ⟨by decide, borrow_conservation 1000 2500 1 10000 (by decide)⟩

/-- C2 counterexample: the spec's formula
`loan_collateral = loan / (price * ltv_bps / 10_000)` disagrees with the
source's `loan_amount / BasePoints(price * ltv_bps)`, i.e.
`loan * 10_000 / (price * ltv_bps)`, at price 3, ltv 5000, collateral 100,
asset 1000: the loan is 150, the source locks 100, the spec's formula
yields 150. -/
theorem borrow_loanCollateral_spec_mismatch :
    (borrow 1000 100 3 5000).loanAmount = 150 ∧
    (borrow 1000 100 3 5000).loanCollateralAmount = 100 ∧
    specLoanCollateral (borrow 1000 100 3 5000).loanAmount 3 5000 = 150 ∧
    (borrow 1000 100 3 5000).loanCollateralAmount ≠
      specLoanCollateral (borrow 1000 100 3 5000).loanAmount 3 5000 := by
  decide

/-- C2 (amended): the borrow circuit computes exactly
`max_loan = collateral * (price * ltv_bps) / 10_000` (multiply before
truncating divide), `loan = min(max_loan, asset)`,
`loan_collateral = loan * 10_000 / (price * ltv_bps)` (scale up by 10_000
before the truncating divide, not `loan / (price * ltv_bps / 10_000)`), and
`collateral_excess = collateral - loan_collateral`, for every choice of
non-negative operands. -/
theorem borrow_formulas (assetAmount collateralAmount price loanToValueBps : Nat) :
    (borrow assetAmount collateralAmount price loanToValueBps).maxLoanAmount =
      collateralAmount * (price * loanToValueBps) / 10000 ∧
    (borrow assetAmount collateralAmount price loanToValueBps).loanAmount =
      min ((borrow assetAmount collateralAmount price loanToValueBps).maxLoanAmount)
        assetAmount ∧
    (borrow assetAmount collateralAmount price loanToValueBps).loanCollateralAmount =
      (borrow assetAmount collateralAmount price loanToValueBps).loanAmount * 10000 /
        (price * loanToValueBps) ∧
    (borrow assetAmount collateralAmount price loanToValueBps).collateralExcessAmount =
      collateralAmount -
        (borrow assetAmount collateralAmount price loanToValueBps).loanCollateralAmount :=
  ⟨rfl, rfl, rfl, rfl⟩

/-- C3 counterexample: at principal 1000, rate 1 bps, 10 slots, deposit 100,
locked collateral 1000, the circuit's collateral release is
`(100 / 1001) * 1000 = 0`, not the spec example's `⌊(100 * 1000) / 1001⌋ = 99`. -/
theorem repay_example_collateral_mismatch :
    (repay 100 1000 1000 10 1).collateralRepayment = 0 ∧
    (repay 100 1000 1000 10 1).collateralRepayment ≠ 99 := by
  decide

/-- C3 (amended): the repay worked example. With principal 1000, rate 1 bps,
10 slots elapsed, deposit 100 and locked collateral 1000 the circuit yields
interest 1, total due 1001, actual repay 100, remaining due 901, collateral
release `(100 / 1001) * 1000 = 0`, and fully-repaid false. -/
theorem repay_example_values :
    repay 100 1000 1000 10 1 = ⟨1, 1001, 100, 901, 0, false⟩ := by
  decide

/-- C4: in the repay circuit the collateral release equals
`(actual_repay / total_due) * locked_collateral` with the truncating division
performed before the multiplication, for every input with positive total due;
and this is not the same function as `actual_repay * locked_collateral / total_due`. -/
theorem repay_collateral_truncation_order :
    (∀ repayAmount lockedCollateral remainingPrincipal slotsElapsed interestRateBps : Nat,
      0 < (repay repayAmount lockedCollateral remainingPrincipal slotsElapsed
            interestRateBps).totalDue →
      (repay repayAmount lockedCollateral remainingPrincipal slotsElapsed
          interestRateBps).collateralRepayment =
        (repay repayAmount lockedCollateral remainingPrincipal slotsElapsed
            interestRateBps).actualRepayAmount /
          (repay repayAmount lockedCollateral remainingPrincipal slotsElapsed
            interestRateBps).totalDue * lockedCollateral) ∧
    ¬ (∀ repayAmount lockedCollateral remainingPrincipal slotsElapsed interestRateBps : Nat,
      (repay repayAmount lockedCollateral remainingPrincipal slotsElapsed
          interestRateBps).collateralRepayment =
        (repay repayAmount lockedCollateral remainingPrincipal slotsElapsed
            interestRateBps).actualRepayAmount * lockedCollateral /
          (repay repayAmount lockedCollateral remainingPrincipal slotsElapsed
            interestRateBps).totalDue) := by
  constructor
  · intro _ _ _ _ _ _
    rfl
  · intro h
    exact absurd (h 100 1000 1000 10 1) (by decide)

/-- Witness for C4 at the repay worked example. -/
theorem repay_collateral_truncation_order_witness :
    0 < (repay 100 1000 1000 10 1).totalDue ∧
    (repay 100 1000 1000 10 1).collateralRepayment =
      (repay 100 1000 1000 10 1).actualRepayAmount /
        (repay 100 1000 1000 10 1).totalDue * 1000 :=
  ⟨by decide, repay_collateral_truncation_order.1 100 1000 1000 10 1 (by decide)⟩

/-- Ciphertext blob stored in the records (`RescueCiphertext`): the handlers
treat it as an opaque 32-byte array, so it is modelled by its byte list. -/
structure RescueCiphertext where
  bytes : List Nat
  deriving DecidableEq, Repr

/-- Zeroed ciphertext, the `RescueCiphertext::default()` of a fresh record. -/
def RescueCiphertext.zero : RescueCiphertext := ⟨List.replicate 32 0⟩

/-- Decoding a ciphertext from raw bytes, `RescueCiphertext::try_from(&[u8])`:
succeeds exactly on a 32-byte slice. -/
def rescueCiphertextTryFrom (data : List Nat) : Except ProgErr RescueCiphertext :=
  if data.length = 32 then Except.ok ⟨data⟩ else Except.error ProgErr.invalidAccountData

/-- Borsh deserialization of a `bool` from a byte slice,
`bool::try_from_slice`: exactly one byte, 0 or 1. -/
def borshBoolTryFromSlice (data : List Nat) : Except ProgErr Bool :=
  match data with
  | [0] => Except.ok false
  | [1] => Except.ok true
  | _ => Except.error ProgErr.borshIoError

/-- Status of a completed confidential transfer (`TransferStatus`). -/
inductive TransferStatus where
  | success
  | failure
  deriving DecidableEq, Repr

/-- Completed result record fetched by `transfer_result`: the transfer status
and the optional custom computation output bytes. -/
structure TransferResult where
  status : TransferStatus
  customComputationOutput : Option (List Nat)
  deriving DecidableEq, Repr

/-- Reduction of a successful `Except` bind, used to evaluate the handlers'
monadic pipelines. -/
@[simp] theorem except_ok_bind {ε α β : Type} (x : α) (f : α → Except ε β) :
    (Except.ok x >>= f : Except ε β) = f x := rfl

/-- Reduction of a failed `Except` bind: an error short-circuits the handler. -/
@[simp] theorem except_error_bind {ε α β : Type} (e : ε) (f : α → Except ε β) :
    (Except.error e >>= f : Except ε β) = Except.error e := rfl

/-- Loan record (`src/lending/src/state.rs`, struct `Loan`). Identities and
addresses are modelled as natural numbers. -/
structure Loan where
  borrower : Nat
  lendingPool : Nat
  active : Bool
  encryptedPrincipal : RescueCiphertext
  encryptedCollateral : RescueCiphertext
  lastUpdateSlot : Nat
  deriving DecidableEq, Repr

/-- Fresh loan record, `Loan::new`: inactive, zero ciphertexts. -/
def Loan.new (borrower lendingPool : Nat) : Loan :=
  ⟨borrower, lendingPool, false, RescueCiphertext.zero, RescueCiphertext.zero, 0⟩

/-- Handler for `BorrowCallback` (`process_borrow_callback`): reads the
transfer result, takes the custom computation output (a Rust `unwrap`, so a
missing output aborts), decodes it as a ciphertext and stores it as the
loan's `encrypted_principal`. The handler receives the loan account key but
performs no address derivation check on it, and it does not touch the
`active` flag. -/
def processBorrowCallback (loanKey : Nat) (loan : Loan)
    (transferOutput : Except ProgErr TransferResult) : Except ProgErr Loan := do
  let result ← transferOutput
  let outputData ← match result.customComputationOutput with
    | some d => Except.ok d
    | none => Except.error ProgErr.abortUnwrap
  let encryptedLoanAmount ← rescueCiphertextTryFrom outputData
  let _ := loanKey
  Except.ok { loan with encryptedPrincipal := encryptedLoanAmount }

/-- Handler for `RepayCallback` (`process_repay_callback`): reads the transfer
result (`unwrap`), takes the custom output (`unwrap`), decodes bytes 0..32 as
the remaining-due ciphertext (the slice indexing aborts when shorter) and the
rest as a borsh boolean, then stores the ciphertext as `encrypted_principal`
and sets `active := !loan_is_fully_repaid`. As in the borrow callback, the
loan account key is received but never checked against a derivation. -/
def processRepayCallback (loanKey : Nat) (loan : Loan)
    (transferOutput : Except ProgErr TransferResult) : Except ProgErr Loan := do
  let result ← transferOutput
  let outputData ← match result.customComputationOutput with
    | some d => Except.ok d
    | none => Except.error ProgErr.abortUnwrap
  if outputData.length < 32 then
    Except.error ProgErr.abortUnwrap
  else do
    let remainingDue ← rescueCiphertextTryFrom (outputData.take 32)
    let loanIsFullyRepaid ← borshBoolTryFromSlice (outputData.drop 32)
    let _ := loanKey
    Except.ok { loan with
      encryptedPrincipal := remainingDue,
      active := !loanIsFullyRepaid }

/-- C5 counterexample: running the borrow callback on a freshly initialized
(inactive) loan with a well-formed 32-byte output stores the ciphertext but
leaves `active = false`, contradicting the claim that the loan transitions to
the Active state on the borrow callback. -/
theorem borrow_callback_active_not_set :
    processBorrowCallback 0 (Loan.new 2 10)
        (Except.ok ⟨TransferStatus.success, some (List.replicate 32 7)⟩) =
      Except.ok { Loan.new 2 10 with encryptedPrincipal := ⟨List.replicate 32 7⟩ } ∧
    ({ Loan.new 2 10 with encryptedPrincipal := ⟨List.replicate 32 7⟩ } : Loan).active = false := by
  exact ⟨rfl, rfl⟩

/-- C5 (amended): on a completed borrow result whose custom output decodes to
a ciphertext, `process_borrow_callback` stores that ciphertext as the loan's
`encrypted_principal` and leaves every other field — in particular the
`active` flag — unchanged; the loan does not become active on the borrow
callback. -/
theorem borrow_callback_sets_principal_only (loanKey : Nat) (loan : Loan)
    (status : TransferStatus) (output : List Nat) (h : output.length = 32) :
    processBorrowCallback loanKey loan (Except.ok ⟨status, some output⟩) =
      Except.ok { loan with encryptedPrincipal := ⟨output⟩ } ∧
    ({ loan with encryptedPrincipal := ⟨output⟩ } : Loan).active = loan.active ∧
    ({ loan with encryptedPrincipal := ⟨output⟩ } : Loan).borrower = loan.borrower ∧
    ({ loan with encryptedPrincipal := ⟨output⟩ } : Loan).lendingPool = loan.lendingPool ∧
    ({ loan with encryptedPrincipal := ⟨output⟩ } : Loan).encryptedCollateral =
      loan.encryptedCollateral ∧
    ({ loan with encryptedPrincipal := ⟨output⟩ } : Loan).lastUpdateSlot =
      loan.lastUpdateSlot := by
  refine ⟨?_, rfl, rfl, rfl, rfl, rfl⟩
  have hv : rescueCiphertextTryFrom output = Except.ok ⟨output⟩ := by
    simp [rescueCiphertextTryFrom, h]
  simp only [processBorrowCallback, except_ok_bind]
  rw [hv]
  rfl

/-- Witness for C5 (amended) at a concrete loan and output. -/
theorem borrow_callback_sets_principal_only_witness :
    (List.replicate 32 5).length = 32 ∧
    processBorrowCallback 3 (Loan.new 4 11)
        (Except.ok ⟨TransferStatus.success, some (List.replicate 32 5)⟩) =
      Except.ok { Loan.new 4 11 with encryptedPrincipal := ⟨List.replicate 32 5⟩ } :=
  ⟨by decide,
    (borrow_callback_sets_principal_only 3 (Loan.new 4 11) TransferStatus.success
      (List.replicate 32 5) (by decide)).1⟩

/-- C6: on a well-formed repay result whose custom output decodes to a
32-byte remaining-due ciphertext followed by the borsh encoding of the
revealed `fully_repaid` boolean, `process_repay_callback` stores the
ciphertext as the loan's `encrypted_principal` and sets
`active := !fully_repaid`; the resulting loan is closed (`active = false`)
exactly when `fully_repaid` is true. -/
theorem repay_callback_transition (loanKey : Nat) (loan : Loan) (status : TransferStatus)
    (cipher : List Nat) (fullyRepaid : Bool) (h : cipher.length = 32) :
    processRepayCallback loanKey loan
        (Except.ok ⟨status, some (cipher ++ [if fullyRepaid then 1 else 0])⟩) =
      Except.ok { loan with
        encryptedPrincipal := ⟨cipher⟩,
        active := !fullyRepaid } ∧
    (({ loan with encryptedPrincipal := ⟨cipher⟩, active := !fullyRepaid } : Loan).active =
        false ↔ fullyRepaid = true) := by
  have hlt : ¬ ((cipher ++ [if fullyRepaid then 1 else 0]).length < 32) := by
    simp [h]
  have htake : (cipher ++ [if fullyRepaid then 1 else 0]).take 32 = cipher :=
    List.take_left' h
  have hdrop : (cipher ++ [if fullyRepaid then 1 else 0]).drop 32 =
      [if fullyRepaid then 1 else 0] :=
    List.drop_left' h
  have hv : rescueCiphertextTryFrom cipher = Except.ok ⟨cipher⟩ := by
    simp [rescueCiphertextTryFrom, h]
  constructor
  · simp only [processRepayCallback, except_ok_bind]
    rw [if_neg hlt, htake, hdrop, hv]
    cases fullyRepaid <;> simp [borshBoolTryFromSlice]
  · cases fullyRepaid <;> simp

/-- Witness for C6 at a concrete loan, ciphertext and revealed boolean. -/
theorem repay_callback_transition_witness :
    (List.replicate 32 3).length = 32 ∧
    processRepayCallback 6 (Loan.new 8 12)
        (Except.ok ⟨TransferStatus.success, some (List.replicate 32 3 ++ [1])⟩) =
      Except.ok { Loan.new 8 12 with
        encryptedPrincipal := ⟨List.replicate 32 3⟩,
        active := !true } := by
  refine ⟨by decide, ?_⟩
  have h := (repay_callback_transition 6 (Loan.new 8 12) TransferStatus.success
    (List.replicate 32 3) true (by decide)).1
  simpa using h

/-- Modelled from the spec: the deterministic seed-based account derivation
(`find_program_address` of the external ledger runtime, consumed as an opaque
pure collaborator). The spec requires only that it is a pure, deterministic,
domain-separated (by seed tag) derivation from the logical key, so it is
modelled by an injective pairing; the handlers compare addresses only for
equality. Seed tag `"lending_pool"` with the lender identity. -/
def lendingPoolPda (lender : Nat) : Nat := Nat.pair 0 lender

/-- Modelled from the spec: derivation with seed tag `"loan"` from the
(lender, borrower) pair. -/
def loanPda (lender borrower : Nat) : Nat := Nat.pair 1 (Nat.pair lender borrower)

/-- Modelled from the spec: derivation with seed tag `"payroll"` from the
employer identity. -/
def payrollPda (employer : Nat) : Nat := Nat.pair 2 employer

/-- Modelled from the spec: the associated confidential token account
derivation (`get_associated_token_address_and_adapter` /
`get_associated_confidential_token_account_address`), a pure derivation from
the owning account and the mint. -/
def ataAddress (owner mint : Nat) : Nat := Nat.pair 3 (Nat.pair owner mint)

/-- Model of the lending program id (`crate::ID`), used as the expected owner
of pool accounts in `check_lending_pool`. -/
def lendingProgramId : Nat := 100

/-- Lending pool record (`src/lending/src/state.rs`, struct `LendingPool`)
with its capacity-8 borrower array modelled as a list of 8 slots. -/
structure LendingPool where
  lender : Nat
  assetMint : Nat
  collateralMint : Nat
  interestRateBps : Nat
  loanToValueBps : Nat
  collateralThresholdBps : Nat
  numBorrowers : Nat
  borrowers : List Nat
  deriving DecidableEq, Repr

/-- Borrower capacity, `MAX_BORROWERS = 8`. -/
def maxBorrowers : Nat := 8

/-- Appending a borrower, `LendingPool::add_borrower`: fails with
`InvalidAccountData` when the array already holds `MAX_BORROWERS` entries,
otherwise writes the borrower at index `num_borrowers` and increments the
count. No duplicate check is performed. -/
def LendingPool.addBorrower (pool : LendingPool) (borrower : Nat) :
    Except ProgErr LendingPool :=
  if maxBorrowers ≤ pool.numBorrowers then
    Except.error ProgErr.invalidAccountData
  else
    Except.ok { pool with
      borrowers := pool.borrowers.set pool.numBorrowers borrower,
      numBorrowers := pool.numBorrowers + 1 }

/-- Address validation for the lending pool (`check_lending_pool`): the
declared pool account must sit at the canonical derivation from the lender,
be owned by the expected program, and (when supplied) the asset vault must be
the pool's associated token account for the asset mint. -/
def checkLendingPool (lender poolKey poolOwner assetMintKey : Nat)
    (assetVaultKey : Option Nat) (expectedPoolOwner : Nat) : Except ProgErr Nat :=
  let pda := lendingPoolPda lender
  if poolKey ≠ pda then Except.error ProgErr.invalidAccountData
  else if poolOwner ≠ expectedPoolOwner then Except.error ProgErr.incorrectProgramId
  else
    match assetVaultKey with
    | some vaultKey =>
        if vaultKey ≠ ataAddress pda assetMintKey then
          Except.error ProgErr.invalidAccountData
        else Except.ok pda
    | none => Except.ok pda

/-- Address validation for the loan (`check_loan`): the declared loan account
must sit at the canonical derivation from (lender, borrower), the collateral
vault must be the loan's associated account for the collateral mint, and
(when supplied) the repay account the loan's associated account for the asset
mint. -/
def checkLoan (lender borrower loanKey assetMintKey collateralMintKey
    collateralVaultKey : Nat) (assetRepayKey : Option Nat) : Except ProgErr Nat :=
  let pda := loanPda lender borrower
  if loanKey ≠ pda then Except.error ProgErr.invalidSeeds
  else if collateralVaultKey ≠ ataAddress pda collateralMintKey then
    Except.error ProgErr.invalidAccountData
  else
    match assetRepayKey with
    | some repayKey =>
        if repayKey ≠ ataAddress pda assetMintKey then
          Except.error ProgErr.invalidAccountData
        else Except.ok pda
    | none => Except.ok pda

/-- Declared accounts of the `Borrow` Phase-1 instruction
(`process_borrow`), restricted to the fields its validation logic reads. -/
structure BorrowAccounts where
  borrowerKey : Nat
  borrowerIsSigner : Bool
  lenderKey : Nat
  poolKey : Nat
  poolOwner : Nat
  loanKey : Nat
  assetMintKey : Nat
  collateralMintKey : Nat
  assetVaultKey : Nat
  collateralVaultKey : Nat
  deriving DecidableEq, Repr

/-- Circuit arguments submitted by `process_borrow`: the hardcoded price 1
and the pool's loan-to-value ratio. -/
structure BorrowSubmission where
  price : Nat
  loanToValueBps : Nat
  deriving DecidableEq, Repr

/-- Handler for `Borrow` Phase 1 (`process_borrow`): verifies the borrower
signature, checks the pool and loan addresses, then submits the computation
with price 1 and the pool's `loan_to_value_bps`. It mutates no record. -/
def processBorrow (a : BorrowAccounts) (pool : LendingPool) :
    Except ProgErr BorrowSubmission := do
  if !a.borrowerIsSigner then
    Except.error ProgErr.missingRequiredSignature
  else do
    let _ ← checkLendingPool a.lenderKey a.poolKey a.poolOwner a.assetMintKey
      (some a.assetVaultKey) lendingProgramId
    let _ ← checkLoan a.lenderKey a.borrowerKey a.loanKey a.assetMintKey
      a.collateralMintKey a.collateralVaultKey none
    Except.ok ⟨1, pool.loanToValueBps⟩

/-- Declared accounts of the `Repay` Phase-1 instruction (`process_repay`). -/
structure RepayAccounts where
  borrowerKey : Nat
  borrowerIsSigner : Bool
  lenderKey : Nat
  poolKey : Nat
  poolOwner : Nat
  loanKey : Nat
  assetMintKey : Nat
  collateralMintKey : Nat
  assetRepayKey : Nat
  collateralVaultKey : Nat
  deriving DecidableEq, Repr

/-- Circuit arguments submitted by `process_repay`: the stored principal
ciphertext, the hardcoded `slots_elapsed = 10` and the pool's interest rate. -/
structure RepaySubmission where
  encryptedPrincipal : RescueCiphertext
  slotsElapsed : Nat
  interestRateBps : Nat
  deriving DecidableEq, Repr

/-- Handler for `Repay` Phase 1 (`process_repay`): verifies the borrower
signature, checks the pool (without vault) and loan (with repay account)
addresses, then submits the computation with the loan's stored ciphertext
principal, `slots_elapsed = 10` and the pool's `interest_rate_bps`. It
mutates no record. -/
def processRepay (a : RepayAccounts) (pool : LendingPool) (loan : Loan) :
    Except ProgErr RepaySubmission := do
  if !a.borrowerIsSigner then
    Except.error ProgErr.missingRequiredSignature
  else do
    let _ ← checkLendingPool a.lenderKey a.poolKey a.poolOwner a.assetMintKey
      none lendingProgramId
    let _ ← checkLoan a.lenderKey a.borrowerKey a.loanKey a.assetMintKey
      a.collateralMintKey a.collateralVaultKey (some a.assetRepayKey)
    Except.ok ⟨loan.encryptedPrincipal, 10, pool.interestRateBps⟩

/-- Employee entry (`src/payroll/src/state.rs`, struct `Employee`). -/
structure Employee where
  key : Nat
  encryptedSalary : RescueCiphertext
  lastClaimedSlot : Nat
  previousClaimedSlot : Nat
  deriving DecidableEq, Repr

/-- Zero-filled employee slot, the `Default` of the fixed array. -/
def Employee.empty : Employee := ⟨0, RescueCiphertext.zero, 0, 0⟩

/-- Payroll record (`src/payroll/src/state.rs`, struct `Payroll`) with its
capacity-8 employee array modelled as a list of 8 slots. -/
structure Payroll where
  employer : Nat
  mint : Nat
  numEmployees : Nat
  employees : List Employee
  deriving DecidableEq, Repr

/-- Employee capacity, `MAX_EMPLOYEES = 8`. -/
def maxEmployees : Nat := 8

/-- Index of the first entry with the given key, mirroring the scan loop of
`Payroll::find_employee` over the first `num_employees` entries. -/
def findEmployeeIdx (key : Nat) : List Employee → Option Nat
  | [] => none
  | e :: rest =>
      if e.key = key then some 0 else (findEmployeeIdx key rest).map (· + 1)

/-- Lookup of an employee, `Payroll::find_employee`: scans the first
`num_employees` entries and fails with `InvalidAccountData` when absent. -/
def Payroll.findEmployee (payroll : Payroll) (employee : Nat) : Except ProgErr Nat :=
  match findEmployeeIdx employee (payroll.employees.take payroll.numEmployees) with
  | some idx => Except.ok idx
  | none => Except.error ProgErr.invalidAccountData

/-- Address validation for the payroll (`check_payroll`): the declared
payroll account must sit at the canonical derivation from the employer and
the declared token account must be the payroll's associated confidential
token account for the mint. -/
def checkPayroll (employerKey payrollKey mintKey payrollTokenAccountKey : Nat) :
    Except ProgErr Nat :=
  let pda := payrollPda employerKey
  if payrollKey ≠ pda then Except.error ProgErr.invalidAccountOwner
  else if payrollTokenAccountKey ≠ ataAddress payrollKey mintKey then
    Except.error ProgErr.invalidAccountData
  else Except.ok pda

/-- Handler for `AddEmployee` (`process_add_employee`): requires the employer
signature, compares the stored employer identity (it performs no
canonical-address check on the payroll account), rejects with
`AccountDataTooSmall` when the array already holds `MAX_EMPLOYEES` entries,
otherwise appends the employee with zeroed claim slots. -/
def processAddEmployee (employerKey : Nat) (employerIsSigner : Bool)
    (payroll : Payroll) (employee : Nat) (encryptedSalary : RescueCiphertext) :
    Except ProgErr Payroll :=
  if !employerIsSigner then Except.error ProgErr.missingRequiredSignature
  else if payroll.employer ≠ employerKey then Except.error ProgErr.illegalOwner
  else if maxEmployees ≤ payroll.numEmployees then
    Except.error ProgErr.accountDataTooSmall
  else
    Except.ok { payroll with
      employees := payroll.employees.set payroll.numEmployees
        ⟨employee, encryptedSalary, 0, 0⟩,
      numEmployees := payroll.numEmployees + 1 }

/-- Declared accounts of the `ClaimSalary` Phase-1 instruction
(`process_claim_salary`), restricted to the fields its logic reads. -/
structure ClaimSalaryAccounts where
  employeeKey : Nat
  employeeIsSigner : Bool
  employerKey : Nat
  payrollKey : Nat
  mintKey : Nat
  payrollTokenAccountKey : Nat
  deriving DecidableEq, Repr

/-- Handler for `ClaimSalary` Phase 1 (`process_claim_salary`): verifies the
employee signature, checks the payroll addresses, checks the mint, locates
the employee, rejects with `Custom(0)` when `last_claimed_slot` equals the
current slot, otherwise shifts `last_claimed_slot` into
`previous_claimed_slot`, stamps the current slot, persists the record and
submits the transfer whose encrypted amount is the employee's stored salary
ciphertext. Returns the updated payroll record and the submitted amount. -/
def processClaimSalary (a : ClaimSalaryAccounts) (payroll : Payroll)
    (clockSlot : Nat) : Except ProgErr (Payroll × RescueCiphertext) := do
  if !a.employeeIsSigner then
    Except.error ProgErr.missingRequiredSignature
  else do
    let _ ← checkPayroll a.employerKey a.payrollKey a.mintKey a.payrollTokenAccountKey
    if a.mintKey ≠ payroll.mint then
      Except.error ProgErr.invalidAccountOwner
    else do
      let employeeIdx ← payroll.findEmployee a.employeeKey
      let e := payroll.employees.getD employeeIdx Employee.empty
      if e.lastClaimedSlot = clockSlot then
        Except.error (ProgErr.custom 0)
      else
        Except.ok
          ({ payroll with
              employees := payroll.employees.set employeeIdx
                { e with
                    previousClaimedSlot := e.lastClaimedSlot,
                    lastClaimedSlot := clockSlot } },
            e.encryptedSalary)

/-- Handler for `ClaimSalaryCallback` (`process_claim_salary_callback`):
checks the payroll addresses, inspects the transfer result, and returns
success in every case — transfer success, transfer failure, and unreadable
result alike — without writing to the payroll record (the failure path is a
deliberate no-op so the employee may claim again). The unchanged payroll
record is returned to make the absence of mutation explicit. -/
def processClaimSalaryCallback (employerKey payrollKey mintKey
    payrollTokenAccountKey : Nat) (payroll : Payroll)
    (transferOutput : Except ProgErr TransferResult) : Except ProgErr Payroll := do
  let _ ← checkPayroll employerKey payrollKey mintKey payrollTokenAccountKey
  match transferOutput with
  | Except.ok output =>
      if output.status = TransferStatus.success then Except.ok payroll
      else Except.ok payroll
  | Except.error _ => Except.ok payroll

/-- An index found by the employee scan lies inside the scanned list. -/
theorem findEmployeeIdx_lt_length (key : Nat) (l : List Employee) :
    ∀ i, findEmployeeIdx key l = some i → i < l.length := by
  induction l with
  | nil => intro i h; simp [findEmployeeIdx] at h
  | cons e rest ih =>
      intro i h
      by_cases hk : e.key = key
      · simp [findEmployeeIdx, hk] at h
        simp only [List.length_cons]
        omega
      · simp only [findEmployeeIdx, if_neg hk] at h
        obtain ⟨j, hj, hji⟩ := Option.map_eq_some'.mp h
        have := ih j hj
        simp only [List.length_cons]
        omega

/-- The entry at an index found by the employee scan carries the scanned key. -/
theorem findEmployeeIdx_key (key : Nat) (l : List Employee) :
    ∀ i, findEmployeeIdx key l = some i →
      (l.getD i Employee.empty).key = key := by
  induction l with
  | nil => intro i h; simp [findEmployeeIdx] at h
  | cons e rest ih =>
      intro i h
      by_cases hk : e.key = key
      · simp [findEmployeeIdx, hk] at h
        subst h
        simpa using hk
      · simp only [findEmployeeIdx, if_neg hk] at h
        obtain ⟨j, hj, hji⟩ := Option.map_eq_some'.mp h
        subst hji
        simpa [List.getD_cons_succ] using ih j hj

/-- Replacing the found entry by one with the same key leaves the scan
result unchanged: the claim-slot update does not move the employee. -/
theorem findEmployeeIdx_set (key : Nat) (l : List Employee) :
    ∀ i (e' : Employee), findEmployeeIdx key l = some i → e'.key = key →
      findEmployeeIdx key (l.set i e') = some i := by
  induction l with
  | nil => intro i e' h _; simp [findEmployeeIdx] at h
  | cons e rest ih =>
      intro i e' h hk'
      by_cases hk : e.key = key
      · simp [findEmployeeIdx, hk] at h
        subst h
        simp [List.set, findEmployeeIdx, hk']
      · simp only [findEmployeeIdx, if_neg hk] at h
        obtain ⟨j, hj, hji⟩ := Option.map_eq_some'.mp h
        subst hji
        simp [List.set, findEmployeeIdx, if_neg hk, ih j e' hj hk']

/-- Unfolding of a successful employee lookup into the underlying scan. -/
theorem findEmployee_ok (payroll : Payroll) (key idx : Nat)
    (h : payroll.findEmployee key = Except.ok idx) :
    findEmployeeIdx key (payroll.employees.take payroll.numEmployees) = some idx := by
  unfold Payroll.findEmployee at h
  cases hf : findEmployeeIdx key (payroll.employees.take payroll.numEmployees) with
  | none => rw [hf] at h; cases h
  | some j => rw [hf] at h; cases h; rfl

/-- C7 counterexample: `process_borrow_callback` performs no canonical
address check. At the non-canonical loan account address 5 (the canonical
loan address for lender 1 and borrower 2 is a different value) the handler
still succeeds and mutates the loan record, contradicting the claim that
every instruction with a mismatched declared address is rejected without
mutation. -/
theorem borrow_callback_no_address_check :
    (5 : Nat) ≠ loanPda 1 2 ∧
    processBorrowCallback 5 (Loan.new 2 20)
        (Except.ok ⟨TransferStatus.success, some (List.replicate 32 9)⟩) =
      Except.ok { Loan.new 2 20 with encryptedPrincipal := ⟨List.replicate 32 9⟩ } ∧
    ({ Loan.new 2 20 with encryptedPrincipal := ⟨List.replicate 32 9⟩ } : Loan) ≠
      Loan.new 2 20 := by
  refine ⟨by decide, rfl, by decide⟩

/-- C7 (amended): the instructions that do perform the canonical-address
check — `Borrow`, `Repay`, `ClaimSalary` Phase 1 and `ClaimSalaryCallback`,
through `check_lending_pool`, `check_loan` and `check_payroll` — reject a
declared pool/loan/payroll address that differs from the canonical
derivation with an address-mismatch error before any state mutation (an
error result carries no updated record). `BorrowCallback` and
`RepayCallback`, by contrast, perform no address check at all, and
`AddEmployee` checks only the stored employer identity, not the payroll
address. -/
theorem address_check_rejects_mismatch :
    (∀ lender poolKey poolOwner assetMintKey vaultKey expectedOwner,
      poolKey ≠ lendingPoolPda lender →
      checkLendingPool lender poolKey poolOwner assetMintKey vaultKey expectedOwner =
        Except.error ProgErr.invalidAccountData) ∧
    (∀ lender borrower loanKey assetMintKey collateralMintKey collateralVaultKey
        assetRepayKey,
      loanKey ≠ loanPda lender borrower →
      checkLoan lender borrower loanKey assetMintKey collateralMintKey
        collateralVaultKey assetRepayKey = Except.error ProgErr.invalidSeeds) ∧
    (∀ employerKey payrollKey mintKey tokenKey,
      payrollKey ≠ payrollPda employerKey →
      checkPayroll employerKey payrollKey mintKey tokenKey =
        Except.error ProgErr.invalidAccountOwner) ∧
    (∀ (a : BorrowAccounts) (pool : LendingPool),
      a.borrowerIsSigner = true → a.poolKey ≠ lendingPoolPda a.lenderKey →
      processBorrow a pool = Except.error ProgErr.invalidAccountData) ∧
    (∀ (a : RepayAccounts) (pool : LendingPool) (loan : Loan),
      a.borrowerIsSigner = true → a.poolKey ≠ lendingPoolPda a.lenderKey →
      processRepay a pool loan = Except.error ProgErr.invalidAccountData) ∧
    (∀ (a : ClaimSalaryAccounts) (payroll : Payroll) (clockSlot : Nat),
      a.employeeIsSigner = true → a.payrollKey ≠ payrollPda a.employerKey →
      processClaimSalary a payroll clockSlot =
        Except.error ProgErr.invalidAccountOwner) ∧
    (∀ (employerKey payrollKey mintKey tokenKey : Nat) (payroll : Payroll)
        (transferOutput : Except ProgErr TransferResult),
      payrollKey ≠ payrollPda employerKey →
      processClaimSalaryCallback employerKey payrollKey mintKey tokenKey payroll
        transferOutput = Except.error ProgErr.invalidAccountOwner) := by
  refine ⟨?_, ?_, ?_, ?_, ?_, ?_, ?_⟩
  · intro lender poolKey poolOwner assetMintKey vaultKey expectedOwner hne
    simp [checkLendingPool, hne]
  · intro lender borrower loanKey assetMintKey collateralMintKey collateralVaultKey
      assetRepayKey hne
    simp [checkLoan, hne]
  · intro employerKey payrollKey mintKey tokenKey hne
    simp [checkPayroll, hne]
  · intro a pool hsig hne
    simp [processBorrow, hsig, checkLendingPool, hne]
  · intro a pool loan hsig hne
    simp [processRepay, hsig, checkLendingPool, hne]
  · intro a payroll clockSlot hsig hne
    simp [processClaimSalary, hsig, checkPayroll, hne]
  · intro employerKey payrollKey mintKey tokenKey payroll transferOutput hne
    simp [processClaimSalaryCallback, checkPayroll, hne]

/-- Witness for C7 (amended): concrete mismatched claim-salary request. -/
theorem address_check_rejects_mismatch_witness :
    (⟨7, true, 1, 0, 5, 9⟩ : ClaimSalaryAccounts).employeeIsSigner = true ∧
    (⟨7, true, 1, 0, 5, 9⟩ : ClaimSalaryAccounts).payrollKey ≠ payrollPda 1 ∧
    processClaimSalary ⟨7, true, 1, 0, 5, 9⟩
        ⟨1, 5, 0, List.replicate 8 Employee.empty⟩ 3 =
      Except.error ProgErr.invalidAccountOwner :=
  ⟨rfl, by decide,
    address_check_rejects_mismatch.2.2.2.2.2.1 ⟨7, true, 1, 0, 5, 9⟩
      ⟨1, 5, 0, List.replicate 8 Employee.empty⟩ 3 rfl (by decide)⟩

/-- C8: capacity bound. A 9th borrower addition on a pool whose borrower
array already holds 8 entries fails with the capacity error
(`InvalidAccountData`), and a 9th `AddEmployee` by the signing employer on a
full payroll fails with the capacity error (`AccountDataTooSmall`); in both
cases the handler returns before any mutation, so the record is unchanged. -/
theorem capacity_bound :
    (∀ (pool : LendingPool) (borrower : Nat), pool.numBorrowers = 8 →
      pool.addBorrower borrower = Except.error ProgErr.invalidAccountData) ∧
    (∀ (employerKey : Nat) (payroll : Payroll) (employee : Nat)
        (encryptedSalary : RescueCiphertext),
      payroll.employer = employerKey → payroll.numEmployees = 8 →
      processAddEmployee employerKey true payroll employee encryptedSalary =
        Except.error ProgErr.accountDataTooSmall) := by
  constructor
  · intro pool borrower h
    simp [LendingPool.addBorrower, maxBorrowers, h]
  · intro employerKey payroll employee encryptedSalary hemp hfull
    simp [processAddEmployee, hemp, maxEmployees, hfull]

/-- Witness for C8 at a full pool and a full payroll. -/
theorem capacity_bound_witness :
    (⟨1, 2, 3, 1, 10000, 1, 8, List.replicate 8 0⟩ : LendingPool).numBorrowers = 8 ∧
    LendingPool.addBorrower ⟨1, 2, 3, 1, 10000, 1, 8, List.replicate 8 0⟩ 4 =
      Except.error ProgErr.invalidAccountData ∧
    (⟨1, 5, 8, List.replicate 8 Employee.empty⟩ : Payroll).employer = 1 ∧
    (⟨1, 5, 8, List.replicate 8 Employee.empty⟩ : Payroll).numEmployees = 8 ∧
    processAddEmployee 1 true ⟨1, 5, 8, List.replicate 8 Employee.empty⟩ 6
        RescueCiphertext.zero = Except.error ProgErr.accountDataTooSmall :=
  ⟨rfl,
    capacity_bound.1 ⟨1, 2, 3, 1, 10000, 1, 8, List.replicate 8 0⟩ 4 rfl,
    rfl, rfl,
    capacity_bound.2 1 ⟨1, 5, 8, List.replicate 8 Employee.empty⟩ 6
      RescueCiphertext.zero rfl rfl⟩

/-- Evaluation of the claim-salary handler under passing authorization,
address, mint and lookup checks: the handler reduces to the slot guard,
returning the already-claimed error when the entry's `last_claimed_slot`
equals the current slot and otherwise the stamped record together with the
submitted salary ciphertext. -/
theorem processClaimSalary_eval (a : ClaimSalaryAccounts) (payroll : Payroll)
    (clockSlot idx : Nat)
    (hsig : a.employeeIsSigner = true)
    (hpk : a.payrollKey = payrollPda a.employerKey)
    (hata : a.payrollTokenAccountKey = ataAddress a.payrollKey a.mintKey)
    (hmint : a.mintKey = payroll.mint)
    (hfind : payroll.findEmployee a.employeeKey = Except.ok idx) :
    processClaimSalary a payroll clockSlot =
      if (payroll.employees.getD idx Employee.empty).lastClaimedSlot = clockSlot then
        Except.error (ProgErr.custom 0)
      else
        Except.ok
          ({ payroll with
              employees := payroll.employees.set idx
                { payroll.employees.getD idx Employee.empty with
                    previousClaimedSlot :=
                      (payroll.employees.getD idx Employee.empty).lastClaimedSlot,
                    lastClaimedSlot := clockSlot } },
            (payroll.employees.getD idx Employee.empty).encryptedSalary) := by
  have hcp : checkPayroll a.employerKey a.payrollKey a.mintKey a.payrollTokenAccountKey =
      Except.ok (payrollPda a.employerKey) := by
    simp [checkPayroll, hpk, hata]
  rw [hmint] at hcp
  simp only [processClaimSalary, hsig, Bool.not_true, Bool.false_eq_true, if_false,
    hfind, hmint]
  simp [hcp]

/-- C9: claim throttling. Under a listed employee, valid addresses and mint:
when the employee's `last_claimed_slot` equals the current slot the Phase-1
claim fails with the already-claimed error `Custom(0)` (and, returning an
error, leaves the record unchanged); otherwise it shifts the old
`last_claimed_slot` into `previous_claimed_slot`, stamps the current slot —
and a second claim by the same employee at the same slot then fails with the
already-claimed error. -/
theorem claim_salary_throttling (a : ClaimSalaryAccounts) (payroll : Payroll)
    (clockSlot idx : Nat)
    (hsig : a.employeeIsSigner = true)
    (hpk : a.payrollKey = payrollPda a.employerKey)
    (hata : a.payrollTokenAccountKey = ataAddress a.payrollKey a.mintKey)
    (hmint : a.mintKey = payroll.mint)
    (hfind : payroll.findEmployee a.employeeKey = Except.ok idx) :
    ((payroll.employees.getD idx Employee.empty).lastClaimedSlot = clockSlot →
      processClaimSalary a payroll clockSlot = Except.error (ProgErr.custom 0)) ∧
    ((payroll.employees.getD idx Employee.empty).lastClaimedSlot ≠ clockSlot →
      processClaimSalary a payroll clockSlot =
        Except.ok
          ({ payroll with
              employees := payroll.employees.set idx
                { payroll.employees.getD idx Employee.empty with
                    previousClaimedSlot :=
                      (payroll.employees.getD idx Employee.empty).lastClaimedSlot,
                    lastClaimedSlot := clockSlot } },
            (payroll.employees.getD idx Employee.empty).encryptedSalary) ∧
      processClaimSalary a
          { payroll with
              employees := payroll.employees.set idx
                { payroll.employees.getD idx Employee.empty with
                    previousClaimedSlot :=
                      (payroll.employees.getD idx Employee.empty).lastClaimedSlot,
                    lastClaimedSlot := clockSlot } }
          clockSlot = Except.error (ProgErr.custom 0)) := by
  have heval := processClaimSalary_eval a payroll clockSlot idx hsig hpk hata hmint hfind
  constructor
  · intro hslot
    rw [heval, if_pos hslot]
  · intro hslot
    refine ⟨by rw [heval, if_neg hslot], ?_⟩
    set e : Employee := payroll.employees.getD idx Employee.empty with he
    set e' : Employee :=
      { e with previousClaimedSlot := e.lastClaimedSlot, lastClaimedSlot := clockSlot }
      with he'
    set p' : Payroll := { payroll with employees := payroll.employees.set idx e' } with hp'
    have hfi : findEmployeeIdx a.employeeKey
        (payroll.employees.take payroll.numEmployees) = some idx :=
      findEmployee_ok payroll a.employeeKey idx hfind
    have hlt : idx < (payroll.employees.take payroll.numEmployees).length :=
      findEmployeeIdx_lt_length a.employeeKey _ idx hfi
    have hlt_n : idx < payroll.numEmployees := by
      rw [List.length_take] at hlt
      omega
    have hlt_len : idx < payroll.employees.length := by
      rw [List.length_take] at hlt
      omega
    have hgetD_take : (payroll.employees.take payroll.numEmployees).getD idx
        Employee.empty = payroll.employees.getD idx Employee.empty := by
      simp [List.getD_eq_getElem?_getD, List.getElem?_take, hlt_n]
    have hkey : e.key = a.employeeKey := by
      rw [he, ← hgetD_take]
      exact findEmployeeIdx_key a.employeeKey _ idx hfi
    have hkey' : e'.key = a.employeeKey := by
      rw [he']
      exact hkey
    have hfi' : findEmployeeIdx a.employeeKey (p'.employees.take p'.numEmployees) =
        some idx := by
      show findEmployeeIdx a.employeeKey
        ((payroll.employees.set idx e').take payroll.numEmployees) = some idx
      rw [List.set_take]
      exact findEmployeeIdx_set a.employeeKey _ idx e' hfi hkey'
    have hfind' : p'.findEmployee a.employeeKey = Except.ok idx := by
      unfold Payroll.findEmployee
      rw [hfi']
    have hgetD' : p'.employees.getD idx Employee.empty = e' := by
      show (payroll.employees.set idx e').getD idx Employee.empty = e'
      simp [List.getD_eq_getElem?_getD, List.getElem?_set_self hlt_len]
    have heval' := processClaimSalary_eval a p' clockSlot idx hsig hpk hata hmint hfind'
    rw [heval', hgetD']
    rw [if_pos]
    rw [he']

/-- Helper accounts for the claim-salary witnesses: employee 7 claiming from
employer 1's payroll at its canonical addresses. -/
def claimAccountsExample : ClaimSalaryAccounts :=
  ⟨7, true, 1, payrollPda 1, 5, ataAddress (payrollPda 1) 5⟩

/-- Helper payroll for the claim-salary witnesses: employer 1, mint 5, one
listed employee with key 7 and zeroed claim slots. -/
def payrollExample : Payroll :=
  ⟨1, 5, 1, ⟨7, RescueCiphertext.zero, 0, 0⟩ :: List.replicate 7 Employee.empty⟩

/-- Witness for C9 at the concrete payroll: a first claim at slot 3 succeeds
and stamps the slot, a second claim at slot 3 fails with `Custom(0)`. -/
theorem claim_salary_throttling_witness :
    (payrollExample.employees.getD 0 Employee.empty).lastClaimedSlot ≠ 3 ∧
    (processClaimSalary claimAccountsExample payrollExample 3 =
      Except.ok
        ({ payrollExample with
            employees := payrollExample.employees.set 0
              { payrollExample.employees.getD 0 Employee.empty with
                  previousClaimedSlot :=
                    (payrollExample.employees.getD 0 Employee.empty).lastClaimedSlot,
                  lastClaimedSlot := 3 } },
          (payrollExample.employees.getD 0 Employee.empty).encryptedSalary) ∧
    processClaimSalary claimAccountsExample
        { payrollExample with
            employees := payrollExample.employees.set 0
              { payrollExample.employees.getD 0 Employee.empty with
                  previousClaimedSlot :=
                    (payrollExample.employees.getD 0 Employee.empty).lastClaimedSlot,
                  lastClaimedSlot := 3 } }
        3 = Except.error (ProgErr.custom 0)) :=
  ⟨by decide,
    (claim_salary_throttling claimAccountsExample payrollExample 3 0 rfl rfl rfl rfl
      rfl).2 (by decide)⟩

/-- C10: the claim-salary callback never mutates the payroll record. With the
canonical addresses declared, for every payroll state and every transfer
result — success, failure, or unreadable — `process_claim_salary_callback`
returns success and the payroll record, including every employee's claim
slots and salary ciphertext, is exactly the input record. -/
theorem claim_salary_callback_no_mutation (employerKey payrollKey mintKey
    tokenKey : Nat) (payroll : Payroll)
    (transferOutput : Except ProgErr TransferResult)
    (hpk : payrollKey = payrollPda employerKey)
    (hata : tokenKey = ataAddress payrollKey mintKey) :
    processClaimSalaryCallback employerKey payrollKey mintKey tokenKey payroll
      transferOutput = Except.ok payroll := by
  have hcp : checkPayroll employerKey payrollKey mintKey tokenKey =
      Except.ok (payrollPda employerKey) := by
    simp [checkPayroll, hpk, hata]
  simp only [processClaimSalaryCallback, hcp, except_ok_bind]
  cases transferOutput with
  | ok o =>
      cases o with
      | mk st out => cases st <;> rfl
  | error e => rfl

/-- Witness for C10 at a concrete payroll and an unreadable transfer result. -/
theorem claim_salary_callback_no_mutation_witness :
    payrollPda 1 = payrollPda 1 ∧
    processClaimSalaryCallback 1 (payrollPda 1) 5 (ataAddress (payrollPda 1) 5)
        payrollExample (Except.error ProgErr.abortUnwrap) =
      Except.ok payrollExample :=
  ⟨rfl,
    claim_salary_callback_no_mutation 1 (payrollPda 1) 5 (ataAddress (payrollPda 1) 5)
      payrollExample (Except.error ProgErr.abortUnwrap) rfl rfl⟩

end CSpl
